import Mathlib

/-
Verification of the account/authentication core of the user-login program
(`src/main.py`): the `User`/`AdminUser` data model, the authentication
method `User.login`, the JSON persistence codec (`save_users`/`load_users`
with `to_dict`/`from_dict`), the store operations (`find_user`, the create
branch of `main`, the default-admin bootstrap), and the admin capability
`AdminUser.reset_password`.

The embedding is shallow: the mutable Python objects become immutable
structures with explicit state passing (methods that mutate `self` or a
target return the updated value), the Python class hierarchy
`User`/`AdminUser` becomes a `role` tag on a single structure (dynamic
dispatch in `to_dict` and the `isinstance` checks read the tag), JSON
dicts become a `Record` structure with `Option`-valued fields (a missing
key is `none`), and the `KeyError` raised by `d["username"]` /
`d["password"]` becomes `Except.error`, propagated out of `load_users`
exactly as the uncaught Python exception aborts the load.
-/

namespace UserLogin

/-- Role discriminant replacing the Python class split `User` vs `AdminUser`. -/
inductive Role where
  | user
  | adminUser
deriving DecidableEq, Repr

/-- The three observable outcomes of `User.login`: the early return on an
inactive account prints "Account disabled.", success prints "Login
successful." and the final fallthrough prints "Invalid credentials.".
The Python return value is `True` exactly for `success`. -/
inductive AuthResult where
  | disabled
  | success
  | invalidCredentials
deriving DecidableEq, Repr

/-- The account state of class `User` in `src/main.py` (lines 13-19):
`username`, `password`, `active` (default `True`), `login_count`
(default `0`), plus the role tag carried by the class identity. -/
structure User where
  username : String
  password : String
  active : Bool
  login_count : Nat
  role : Role
deriving DecidableEq, Repr

/-- Model of `User.check_password` (lines 21-23): plain equality on passwords. -/
def User.check_password (u : User) (pw : String) : Bool :=
  u.password == pw

/-- Model of `User.login` (lines 25-35): blocks if inactive, otherwise compares
username and password, incrementing `login_count` on success. Returns the
outcome together with the updated account state. -/
def User.login (u : User) (username password : String) : AuthResult × User :=
  if !u.active then
    (AuthResult.disabled, u)
  else if u.username == username && u.check_password password then
    (AuthResult.success, { u with login_count := u.login_count + 1 })
  else
    (AuthResult.invalidCredentials, u)

/-- A JSON record of the durable representation: each field of the dict is
optional (`none` models a missing key). -/
structure Record where
  type : Option String
  username : Option String
  password : Option String
  active : Option Bool
  login_count : Option Nat
deriving DecidableEq, Repr

/-- Model of `User.to_dict` (lines 37-45) together with the `AdminUser.to_dict`
override (lines 78-82): all four fields plus the role tag, which dynamic
dispatch sets to "AdminUser" for admin instances and "User" otherwise. -/
def User.to_dict (u : User) : Record :=
  { type := some (match u.role with
      | Role.adminUser => "AdminUser"
      | Role.user => "User"),
    username := some u.username,
    password := some u.password,
    active := some u.active,
    login_count := some u.login_count }

/-- Model of `User.from_dict` (lines 47-55): `d["username"]` and `d["password"]`
raise `KeyError` when missing (modelled as `Except.error`); `active`
defaults to `True` and `login_count` to `0` via `d.get`. -/
def User.from_dict (d : Record) : Except String User :=
  match d.username, d.password with
  | some un, some pw =>
      Except.ok { username := un, password := pw, active := d.active.getD true,
                  login_count := d.login_count.getD 0, role := Role.user }
  | none, _ => Except.error "KeyError: username"
  | _, none => Except.error "KeyError: password"

/-- Model of `AdminUser.from_dict` (lines 84-92): identical to `User.from_dict`
except that it builds an admin-role account. -/
def AdminUser.from_dict (d : Record) : Except String User :=
  match d.username, d.password with
  | some un, some pw =>
      Except.ok { username := un, password := pw, active := d.active.getD true,
                  login_count := d.login_count.getD 0, role := Role.adminUser }
  | none, _ => Except.error "KeyError: username"
  | _, none => Except.error "KeyError: password"

/-- Model of `save_users` (lines 95-99) without the file handle: the durable
representation is the list of serialized records, in store order. -/
def save_users (users : List User) : List Record :=
  users.map User.to_dict

/-- The per-record dispatch in the `load_users` loop (lines 110-113):
tag `"AdminUser"` selects `AdminUser.from_dict`, anything else (missing
or unrecognized) selects `User.from_dict`. -/
def load_one (d : Record) : Except String User :=
  if d.type == some "AdminUser" then AdminUser.from_dict d else User.from_dict d

/-- Model of `load_users` (lines 101-114) without the file handle: rebuilds the
account list record by record; a `KeyError` in `from_dict` aborts the
whole load at the first malformed record, as the uncaught exception does. -/
def load_users : List Record → Except String (List User)
  | [] => Except.ok []
  | d :: rest =>
      match load_one d with
      | Except.error e => Except.error e
      | Except.ok u =>
          match load_users rest with
          | Except.error e => Except.error e
          | Except.ok us => Except.ok (u :: us)

/-- Model of `find_user` (lines 116-121): linear search for the first account with
the given username. -/
def find_user : List User → String → Option User
  | [], _ => none
  | u :: rest, username =>
      if u.username == username then some u else find_user rest username

/-- Outcome of the create branch of `main`. -/
inductive CreateResult where
  | created
  | duplicateUsername
deriving DecidableEq, Repr

/-- The create branch of `main` (lines 202-209): if `find_user` hits, the
store is left untouched and the duplicate is reported; otherwise a fresh
regular `User(username, password)` (so `active=True`, `login_count=0`) is
appended. -/
def create (users : List User) (username password : String) :
    CreateResult × List User :=
  match find_user users username with
  | some _ => (CreateResult.duplicateUsername, users)
  | none =>
      (CreateResult.created,
        users ++ [{ username := username, password := password, active := true,
                    login_count := 0, role := Role.user }])

/-- The default-administrator bootstrap in `main` (lines 193-196): when no
admin-role account exists, append `AdminUser("admin", "admin123")`. -/
def ensure_admin (users : List User) : List User :=
  if users.any (fun u => u.role == Role.adminUser) then users
  else
    users ++ [{ username := "admin", password := "admin123", active := true,
                login_count := 0, role := Role.adminUser }]

/-- Model of `AdminUser.reset_password` (lines 63-66): unconditionally overwrites
the target's password; the admin receiver is not consulted. -/
def AdminUser.reset_password (_self : User) (target : User) (new_pw : String) :
    User :=
  { target with password := new_pw }

/-- Iterated login: the state of an account after `n` successive calls of
`User.login` with the same supplied username and password. -/
def loginN (u : User) (username password : String) : Nat → User
  | 0 => u
  | n + 1 => ((loginN u username password n).login username password).2

/-- The uniqueness property of the spec: no two accounts in the store
share a username. -/
def uniqueNames (us : List User) : Prop :=
  (us.map User.username).Nodup

/-- Uniqueness of the `username` fields of a list of durable records. -/
def uniqueRecNames (rs : List Record) : Prop :=
  (rs.map Record.username).Nodup

instance : DecidablePred uniqueNames := fun us =>
  inferInstanceAs (Decidable (us.map User.username).Nodup)

instance : DecidablePred uniqueRecNames := fun rs =>
  inferInstanceAs (Decidable (rs.map Record.username).Nodup)

/-- Deserializing a serialized account recovers it exactly, role included. -/
theorem load_one_to_dict (u : User) : load_one u.to_dict = Except.ok u := by
  cases u with
  | mk un pw act lc role =>
    cases role <;>
      simp [load_one, User.to_dict, AdminUser.from_dict, User.from_dict]

/-- C1: for every store `S`, `load_users (save_users S)` succeeds and
yields a store field-for-field and role-for-role identical to `S`, in the
same order. -/
theorem C1_roundtrip (S : List User) :
    load_users (save_users S) = Except.ok S := by
  induction S with
  | nil => rfl
  | cons u rest ih =>
      simp [save_users, load_users, load_one_to_dict, List.map_cons] at *
      simp [ih]

/-- A successful self-login on an active account: the outcome is
`success` and only `login_count` changes, by exactly one. -/
theorem login_self (u : User) (h : u.active = true) :
    u.login u.username u.password =
      (AuthResult.success, { u with login_count := u.login_count + 1 }) := by
  simp [User.login, User.check_password, h]

/-- Iterating a correct self-login only increments the counter. -/
theorem loginN_eq (u : User) (h : u.active = true) (n : Nat) :
    loginN u u.username u.password n =
      { u with login_count := u.login_count + n } := by
  induction n with
  | zero => cases u; rfl
  | succ n ih =>
      have hstep :
          ({ u with login_count := u.login_count + n } : User).login
            u.username u.password =
            (AuthResult.success,
              { u with login_count := u.login_count + n + 1 }) := by
        simp [User.login, User.check_password, h]
      simp [loginN, ih, hstep]
      omega

/-- C3: with the account's own username and password, `login` on an
active account returns success and increments `login_count` by exactly 1;
starting from `login_count = 0`, `N` repetitions leave `login_count = N`. -/
theorem C3_success_increments (u : User) (h : u.active = true) (N : Nat) :
    (u.login u.username u.password).1 = AuthResult.success ∧
    (u.login u.username u.password).2.login_count = u.login_count + 1 ∧
    (u.login_count = 0 →
      (loginN u u.username u.password N).login_count = N) := by
  refine ⟨?_, ?_, ?_⟩
  · rw [login_self u h]
  · rw [login_self u h]
  · intro h0
    rw [loginN_eq u h N]
    simp [h0]

/-- C3 witness at a concrete active account and N = 3. -/
theorem C3_witness :
    (User.login ⟨"alice", "pw1", true, 0, Role.user⟩ "alice" "pw1").1 =
        AuthResult.success ∧
    (User.login ⟨"alice", "pw1", true, 0, Role.user⟩ "alice" "pw1").2.login_count
        = 0 + 1 ∧
    ((0 : Nat) = 0 →
      (loginN ⟨"alice", "pw1", true, 0, Role.user⟩ "alice" "pw1" 3).login_count
        = 3) :=
  C3_success_increments ⟨"alice", "pw1", true, 0, Role.user⟩ rfl 3

/-- C4: on an inactive account, `login` returns the disabled outcome for
every supplied username and password, and the account (in particular
`login_count`) is unchanged. -/
theorem C4_disabled (u : User) (h : u.active = false) (un pw : String) :
    (u.login un pw).1 = AuthResult.disabled ∧ (u.login un pw).2 = u := by
  simp [User.login, h]

/-- C4 witness: a disabled account rejects even its own credentials. -/
theorem C4_witness :
    (User.login ⟨"bob", "pw2", false, 5, Role.user⟩ "bob" "pw2").1 =
        AuthResult.disabled ∧
    (User.login ⟨"bob", "pw2", false, 5, Role.user⟩ "bob" "pw2").2 =
        ⟨"bob", "pw2", false, 5, Role.user⟩ :=
  C4_disabled ⟨"bob", "pw2", false, 5, Role.user⟩ rfl "bob" "pw2"

/-- C5: whenever `login` does not return success (disabled account, wrong
username, or wrong password), the account is returned unchanged in all
four fields. -/
theorem C5_no_side_effect_on_failure (u : User) (un pw : String)
    (h : (u.login un pw).1 ≠ AuthResult.success) :
    (u.login un pw).2 = u := by
  by_cases ha : u.active
  · by_cases hm : (u.username == un && u.check_password pw) = true
    · exact absurd (by simp [User.login, ha, hm]) h
    · simp [User.login, ha, hm]
  · simp [User.login, ha]

/-- C5 witness at a concrete wrong-password attempt. -/
theorem C5_witness :
    (User.login ⟨"alice", "pw1", true, 2, Role.user⟩ "alice" "wrong").2 =
      ⟨"alice", "pw1", true, 2, Role.user⟩ :=
  C5_no_side_effect_on_failure ⟨"alice", "pw1", true, 2, Role.user⟩
    "alice" "wrong" (by decide)

/-- C10: `reset_password` performs no validation: for every target and
every new password (the empty string included) it overwrites the
password and leaves username, active flag and login count unchanged. -/
theorem C10_reset_password (admin target : User) (new_pw : String) :
    (AdminUser.reset_password admin target new_pw).password = new_pw ∧
    (AdminUser.reset_password admin target new_pw).username =
      target.username ∧
    (AdminUser.reset_password admin target new_pw).active = target.active ∧
    (AdminUser.reset_password admin target new_pw).login_count =
      target.login_count :=
  ⟨rfl, rfl, rfl, rfl⟩

/-- Appending a fresh account after a failed lookup makes it findable. -/
theorem find_user_append_self (users : List User) (v : User)
    (h : find_user users v.username = none) :
    find_user (users ++ [v]) v.username = some v := by
  induction users with
  | nil => simp [find_user]
  | cons u rest ih =>
      by_cases hu : (u.username == v.username) = true
      · simp [find_user, hu] at h
      · simp only [List.cons_append, find_user, hu, if_false, Bool.false_eq_true,
          if_neg]
        exact ih (by simpa [find_user, hu] using h)

/-- C6: creating a not-yet-present username succeeds, appending a regular
account with the given username and password, `active = true` and
`login_count = 0`, and `find_user` immediately afterwards returns exactly
that account. -/
theorem C6_create_then_find (users : List User) (un pw : String)
    (h : find_user users un = none) :
    create users un pw =
      (CreateResult.created, users ++ [⟨un, pw, true, 0, Role.user⟩]) ∧
    find_user (users ++ [⟨un, pw, true, 0, Role.user⟩]) un =
      some ⟨un, pw, true, 0, Role.user⟩ := by
  refine ⟨by simp [create, h], ?_⟩
  exact find_user_append_self users ⟨un, pw, true, 0, Role.user⟩ h

/-- C6 witness: creating "alice" in a store holding only the default
admin. -/
theorem C6_witness :
    create [⟨"admin", "admin123", true, 0, Role.adminUser⟩] "alice" "pw1" =
      (CreateResult.created,
        [⟨"admin", "admin123", true, 0, Role.adminUser⟩] ++
          [⟨"alice", "pw1", true, 0, Role.user⟩]) ∧
    find_user
        ([⟨"admin", "admin123", true, 0, Role.adminUser⟩] ++
          [⟨"alice", "pw1", true, 0, Role.user⟩]) "alice" =
      some ⟨"alice", "pw1", true, 0, Role.user⟩ :=
  C6_create_then_find [⟨"admin", "admin123", true, 0, Role.adminUser⟩]
    "alice" "pw1" rfl

/-- C7: creating an already-present username (exact, case-sensitive
match) reports a duplicate and returns the store unchanged. -/
theorem C7_duplicate_unchanged (users : List User) (un pw : String)
    (h : (find_user users un).isSome = true) :
    create users un pw = (CreateResult.duplicateUsername, users) := by
  unfold create
  cases hf : find_user users un with
  | none => rw [hf] at h; simp at h
  | some v => rfl

/-- C7 witness: re-creating "alice" with a different password fails and
leaves the one-account store intact. -/
theorem C7_witness :
    create [⟨"alice", "pw1", true, 0, Role.user⟩] "alice" "other" =
      (CreateResult.duplicateUsername, [⟨"alice", "pw1", true, 0, Role.user⟩]) :=
  C7_duplicate_unchanged [⟨"alice", "pw1", true, 0, Role.user⟩]
    "alice" "other" rfl

/-- C8: a record carrying a username and a password always deserializes,
to an admin-role account exactly when the tag is "AdminUser" and to a
regular account for any other tag (a missing tag included); a missing
`active` defaults to `true` and a missing `login_count` to `0`. -/
theorem C8_record_reconstruction (d : Record) (un pw : String)
    (h1 : d.username = some un) (h2 : d.password = some pw) :
    load_one d = Except.ok
      { username := un, password := pw, active := d.active.getD true,
        login_count := d.login_count.getD 0,
        role := if d.type == some "AdminUser" then Role.adminUser
                else Role.user } := by
  unfold load_one AdminUser.from_dict User.from_dict
  by_cases ht : (d.type == some "AdminUser") = true <;> simp [ht, h1, h2]

/-- C8 witness: an "AdminUser"-tagged record with no `active` and no
`login_count` fields reconstructs an active admin with zero logins. -/
theorem C8_witness :
    load_one ⟨some "AdminUser", some "root", some "s3cret", none, none⟩ =
      Except.ok ⟨"root", "s3cret", true, 0, Role.adminUser⟩ := by
  simpa using
    C8_record_reconstruction
      ⟨some "AdminUser", some "root", some "s3cret", none, none⟩
      "root" "s3cret" rfl rfl

/-- A record missing its username or password makes `User.from_dict`
raise. -/
theorem from_dict_missing_user (d : Record)
    (h : d.username = none ∨ d.password = none) :
    ∃ e, User.from_dict d = Except.error e := by
  unfold User.from_dict
  cases hu : d.username with
  | none => cases hp : d.password <;> exact ⟨_, rfl⟩
  | some un =>
      cases hp : d.password with
      | none => exact ⟨_, rfl⟩
      | some pw => rw [hu, hp] at h; simp at h

/-- A record missing its username or password makes `AdminUser.from_dict`
raise. -/
theorem from_dict_missing_admin (d : Record)
    (h : d.username = none ∨ d.password = none) :
    ∃ e, AdminUser.from_dict d = Except.error e := by
  unfold AdminUser.from_dict
  cases hu : d.username with
  | none => cases hp : d.password <;> exact ⟨_, rfl⟩
  | some un =>
      cases hp : d.password with
      | none => exact ⟨_, rfl⟩
      | some pw => rw [hu, hp] at h; simp at h

/-- A record missing its username or password fails to deserialize. -/
theorem load_one_missing (d : Record)
    (h : d.username = none ∨ d.password = none) :
    ∃ e, load_one d = Except.error e := by
  unfold load_one
  by_cases ht : (d.type == some "AdminUser") = true
  · rw [if_pos ht]; exact from_dict_missing_admin d h
  · rw [if_neg ht]; exact from_dict_missing_user d h

/-- C9: a durable representation holding at least one record that lacks
the username field or the password field makes the whole load abort with
an error (the record is neither defaulted nor skipped). -/
theorem C9_malformed_record_fatal (rs : List Record)
    (h : (rs.any fun d => d.username.isNone || d.password.isNone) = true) :
    ∃ e, load_users rs = Except.error e := by
  induction rs with
  | nil => simp at h
  | cons d rest ih =>
      by_cases hd : (d.username.isNone || d.password.isNone) = true
      · have hmiss : d.username = none ∨ d.password = none := by
          rcases Bool.or_eq_true_iff.mp hd with h' | h'
          · exact Or.inl (Option.isNone_iff_eq_none.mp h')
          · exact Or.inr (Option.isNone_iff_eq_none.mp h')
        obtain ⟨e, he⟩ := load_one_missing d hmiss
        exact ⟨e, by simp [load_users, he]⟩
      · have hrest : (rest.any fun d => d.username.isNone || d.password.isNone)
            = true := by
          rw [List.any_cons] at h
          rcases Bool.or_eq_true_iff.mp h with h' | h'
          · exact absurd h' hd
          · exact h'
        obtain ⟨e, he⟩ := ih hrest
        cases ho : load_one d with
        | error e' => exact ⟨e', by simp [load_users, ho]⟩
        | ok u => exact ⟨e, by simp [load_users, ho, he]⟩

/-- C9 witness: a two-record representation whose second record has no
password aborts the load. -/
theorem C9_witness :
    ∃ e, load_users
        [⟨some "User", some "alice", some "pw1", some true, some 0⟩,
         ⟨some "User", some "mallory", none, some true, some 0⟩] =
      Except.error e :=
  C9_malformed_record_fatal
    [⟨some "User", some "alice", some "pw1", some true, some 0⟩,
     ⟨some "User", some "mallory", none, some true, some 0⟩] (by decide)

/-- C2 counterexample: loading a durable representation whose two records
share the username "alice" succeeds and yields a store with two accounts
of the same username, so uniqueness does not hold after every load. -/
theorem C2_counterexample :
    load_users
        [⟨some "User", some "alice", some "pw1", some true, some 0⟩,
         ⟨some "User", some "alice", some "pw2", some true, some 0⟩] =
      Except.ok
        [⟨"alice", "pw1", true, 0, Role.user⟩,
         ⟨"alice", "pw2", true, 0, Role.user⟩] ∧
    ¬ uniqueNames
        [⟨"alice", "pw1", true, 0, Role.user⟩,
         ⟨"alice", "pw2", true, 0, Role.user⟩] :=
  ⟨rfl, by decide⟩

/-- Splitting a successful load of a nonempty record list. -/
theorem load_users_cons_ok (d : Record) (rest : List Record) (us : List User)
    (h : load_users (d :: rest) = Except.ok us) :
    ∃ u us', load_one d = Except.ok u ∧ load_users rest = Except.ok us' ∧
      us = u :: us' := by
  unfold load_users at h
  cases hd : load_one d with
  | error e => rw [hd] at h; cases h
  | ok u =>
      rw [hd] at h
      cases hr : load_users rest with
      | error e => rw [hr] at h; cases h
      | ok us' =>
          rw [hr] at h
          cases h
          exact ⟨u, us', rfl, rfl, rfl⟩

/-- A successfully deserialized account carries the record's username. -/
theorem load_one_ok_username (d : Record) (u : User)
    (h : load_one d = Except.ok u) : d.username = some u.username := by
  unfold load_one AdminUser.from_dict User.from_dict at h
  cases hu : d.username with
  | none =>
      rw [hu] at h
      cases hp : d.password <;> rw [hp] at h <;> split at h <;> cases h
  | some un =>
      cases hp : d.password with
      | none => rw [hu, hp] at h; split at h <;> cases h
      | some pw => rw [hu, hp] at h; split at h <;> (cases h; rfl)

/-- A successful load maps usernames record-for-record. -/
theorem load_users_names (rs : List Record) (us : List User)
    (h : load_users rs = Except.ok us) :
    rs.map Record.username = us.map (fun u => some u.username) := by
  induction rs generalizing us with
  | nil => unfold load_users at h; cases h; rfl
  | cons d rest ih =>
      obtain ⟨u, us', hd, hr, rfl⟩ := load_users_cons_ok d rest us h
      simp [load_one_ok_username d u hd, ih us' hr]

/-- Loading a representation with pairwise-distinct record usernames
yields a store with pairwise-distinct usernames. -/
theorem load_users_unique (rs : List Record) (us : List User)
    (h : load_users rs = Except.ok us) (hrec : uniqueRecNames rs) :
    uniqueNames us := by
  unfold uniqueRecNames at hrec
  unfold uniqueNames
  rw [load_users_names rs us h] at hrec
  have hmap : ((us.map User.username).map some).Nodup := by
    rw [List.map_map]
    exact hrec
  exact hmap.of_map

/-- Appending an account whose username is fresh preserves uniqueness. -/
theorem uniqueNames_append (us : List User) (v : User)
    (h : uniqueNames us) (hv : ∀ u ∈ us, u.username ≠ v.username) :
    uniqueNames (us ++ [v]) := by
  unfold uniqueNames at h ⊢
  rw [List.map_append, List.nodup_append]
  refine ⟨h, List.nodup_singleton _, ?_⟩
  intro a ha hb
  obtain ⟨u, hu, rfl⟩ := List.mem_map.mp ha
  simp only [List.map_cons, List.map_nil, List.mem_singleton] at hb
  exact hv u hu hb

/-- A failed lookup means no account carries that username. -/
theorem find_user_none (users : List User) (un : String)
    (h : find_user users un = none) : ∀ u ∈ users, u.username ≠ un := by
  induction users with
  | nil => simp
  | cons u rest ih =>
      unfold find_user at h
      by_cases hu : (u.username == un) = true
      · rw [if_pos hu] at h; cases h
      · intro v hv
        rcases List.mem_cons.mp hv with rfl | hv'
        · simpa using hu
        · exact ih (by rwa [if_neg hu] at h) v hv'

/-- Splitting a successful create: the lookup missed and the new account
was appended. -/
theorem create_created (us : List User) (un pw : String) (us' : List User)
    (h : create us un pw = (CreateResult.created, us')) :
    find_user us un = none ∧
      us' = us ++ [⟨un, pw, true, 0, Role.user⟩] := by
  unfold create at h
  cases hf : find_user us un with
  | some v => rw [hf] at h; simp at h
  | none => rw [hf] at h; cases h; exact ⟨rfl, rfl⟩

/-- A successful create preserves username uniqueness. -/
theorem create_unique (us : List User) (un pw : String) (us' : List User)
    (hu : uniqueNames us) (h : create us un pw = (CreateResult.created, us')) :
    uniqueNames us' := by
  obtain ⟨hf, rfl⟩ := create_created us un pw us' h
  exact uniqueNames_append us _ hu (fun u hmem => find_user_none us un hf u hmem)

/-- The bootstrap preserves uniqueness when an admin already exists or no
account is named "admin". -/
theorem ensure_admin_unique (us : List User) (hu : uniqueNames us)
    (h : (us.any fun u => u.role == Role.adminUser) = true ∨
         (us.any fun u => u.username == "admin") = false) :
    uniqueNames (ensure_admin us) := by
  unfold ensure_admin
  by_cases ha : (us.any fun u => u.role == Role.adminUser) = true
  · rw [if_pos ha]; exact hu
  · rw [if_neg ha]
    rcases h with h | h
    · exact absurd h ha
    · refine uniqueNames_append us _ hu ?_
      intro u hmem
      have hfalse := List.any_eq_false.mp h u hmem
      simpa using hfalse

/-- C2 (amended): the uniqueness invariant holds after load provided the
durable records carry pairwise-distinct usernames; it is preserved by the
default-administrator bootstrap provided an admin-role account already
exists or no loaded account is named "admin"; and it is preserved by
every successful create. (As stated, the claim fails: neither load nor
the bootstrap guards against duplicates.) -/
theorem C2_uniqueness_amended (rs : List Record) (us : List User)
    (hload : load_users rs = Except.ok us)
    (hrec : uniqueRecNames rs)
    (hadm : (us.any fun u => u.role == Role.adminUser) = true ∨
            (us.any fun u => u.username == "admin") = false) :
    uniqueNames us ∧ uniqueNames (ensure_admin us) ∧
      ∀ vs un pw vs', uniqueNames vs →
        create vs un pw = (CreateResult.created, vs') → uniqueNames vs' := by
  have h1 := load_users_unique rs us hload hrec
  exact ⟨h1, ensure_admin_unique us h1 hadm,
    fun vs un pw vs' hv hc => create_unique vs un pw vs' hv hc⟩

/-- C2 witness: a one-record representation holding the default admin. -/
theorem C2_witness :
    uniqueNames [⟨"admin", "admin123", true, 0, Role.adminUser⟩] ∧
    uniqueNames (ensure_admin [⟨"admin", "admin123", true, 0, Role.adminUser⟩]) ∧
      ∀ vs un pw vs', uniqueNames vs →
        create vs un pw = (CreateResult.created, vs') → uniqueNames vs' :=
  C2_uniqueness_amended
    [⟨some "AdminUser", some "admin", some "admin123", some true, some 0⟩]
    [⟨"admin", "admin123", true, 0, Role.adminUser⟩]
    rfl (by decide) (Or.inl (by decide))

end UserLogin
